import Mathlib

/-!
Verification of the trip-planner orchestration and tool layer.

Shallow embedding of the relevant Python sources:
- src/agents/orchestrator_agent.py (response formatting, JSON-section
  extraction, plan_trip preference handling, agent-executor tool loop)
- src/tools/calendar_tool.py (CalendarOptimizerTool._run)
- src/tools/route_planner_tool.py (RoutePlannerTool._simulate_route_data)
- src/tools/weather_tool.py (WeatherTool._simulate_weather_data)
- src/agents/calendar_agent.py (CalendarAgent.__init__, get_optimal_dates,
  _parse_azure_response, _get_dummy_dates)

Conventions used throughout:
- Python str values are List Char (for texts scanned character by
  character) or String (for opaque labels such as location names).
- Dates are Int day numbers; datetime.timedelta(days=k) is integer
  addition, and strptime/strftime round-trips are elided.
- Python float arithmetic on the small decimal scores is modelled with ℚ;
  round(x, n) is modelled by roundTo below.  Theorems that depend on
  rounding only use the convention-independent bound |round x - x| <= 1/2.
- Calls to random.* are modelled by explicit parameters constrained to the
  documented range, and calls into external libraries (json.loads, the
  LLM) by explicit function parameters.
-/

/-- The opening-brace character, written via its code point. -/
def braceOpen : Char := Char.ofNat 123

/-- The closing-brace character, written via its code point. -/
def braceClose : Char := Char.ofNat 125

/-- The double-quote character. -/
def quoteD : Char := Char.ofNat 34

/-- The single-quote character. -/
def quoteS : Char := Char.ofNat 39

/-- Values produced by Python json.loads: JSON data. -/
inductive Json where
  | null : Json
  | bool (b : Bool) : Json
  | num (n : Int) : Json
  | str (s : String) : Json
  | arr (elts : List Json) : Json
  | obj (fields : List (String × Json)) : Json

/-- Python truthiness on JSON values: None, False, 0, empty string, empty
list and empty dict are falsy, everything else truthy.  This is the test
applied by the source code in expressions of the form x or default. -/
def truthy : Json → Bool
  | Json.null => false
  | Json.bool b => b
  | Json.num n => n != 0
  | Json.str s => s ≠ ""
  | Json.arr elts => !elts.isEmpty
  | Json.obj fields => !fields.isEmpty

/-- Whether pat occurs at the very start of text. -/
def startsWith : List Char → List Char → Bool
  | [], _ => true
  | _ :: _, [] => false
  | p :: ps, t :: ts => p = t && startsWith ps ts

/-- Python substring test pat in text. -/
def containsSub (pat : List Char) : List Char → Bool
  | [] => pat.isEmpty
  | c :: rest => startsWith pat (c :: rest) || containsSub pat rest

/-- The suffix of text that follows the first occurrence of pat, if pat
occurs at all.  Used to state where a mention of a section name sits. -/
def afterFirstSub (pat : List Char) : List Char → Option (List Char)
  | [] => if pat.isEmpty then some [] else none
  | c :: rest =>
    if startsWith pat (c :: rest) then some ((c :: rest).drop pat.length)
    else afterFirstSub pat rest

/-- The suffix of text starting at the first opening brace, mirroring
text.find with the brace character in _extract_json_section. -/
def fromFirstBrace : List Char → Option (List Char)
  | [] => none
  | c :: rest => if c = braceOpen then some (c :: rest) else fromFirstBrace rest

/-- The brace-matching scan of _extract_json_section: given the characters
after the opening brace and the current open_count, return the characters
up to and including the brace that balances the block, or none when the
scan reaches the end of the text without balancing (the for-loop in the
source then falls through to the default return). -/
def matchedBlock : List Char → Nat → Option (List Char)
  | [], _ => none
  | c :: rest, n =>
    if c = braceOpen then (matchedBlock rest (n + 1)).map (fun m => c :: m)
    else if c = braceClose then
      if n = 1 then some [c] else (matchedBlock rest (n - 1)).map (fun m => c :: m)
    else (matchedBlock rest n).map (fun m => c :: m)

/-- The balanced block starting at the head of s (which is the first
opening brace of the text): the slice text[start_idx:i+1] of the source. -/
def balancedBlockFrom : List Char → Option (List Char)
  | [] => none
  | c :: rest => (matchedBlock rest 1).map (fun m => c :: m)

/-- The mention test at the top of _extract_json_section: the section name
surrounded by double or by single quotes occurs in the text. -/
def mentionOk (sectionName : List Char) (text : List Char) : Bool :=
  containsSub (quoteD :: (sectionName ++ [quoteD])) text ||
  containsSub (quoteS :: (sectionName ++ [quoteS])) text

/-- The per-section fallback of _extract_json_section: empty dict for
recommended_dates and route_plan, empty list for every other section. -/
def emptySection (sectionName : List Char) : Json :=
  if sectionName = "recommended_dates".toList ∨ sectionName = "route_plan".toList then
    Json.obj []
  else
    Json.arr []

/-- OrchestratorAgent._extract_json_section.  The loads parameter models
json.loads, with none standing for a raised ValueError (caught by the
enclosing except, which returns the same per-section fallback). -/
def extract_json_section (loads : List Char → Option Json)
    (text : List Char) (sectionName : List Char) : Json :=
  if mentionOk sectionName text then
    match fromFirstBrace text with
    | none => emptySection sectionName
    | some s =>
      match balancedBlockFrom s with
      | none => emptySection sectionName
      | some block =>
        match loads block with
        | some j => j
        | none => emptySection sectionName
  else emptySection sectionName

/-- The agent executor response consumed by _format_response: a dict with
the output key holding the textual output of the orchestrator agent. -/
structure AgentResponse where
  output : List Char

/-- The structured trip plan returned by _format_response; one field per
key of the dict built at the end of that method. -/
structure TripPlan where
  starting_location : String
  duration_days : Int
  recommended_dates : Json
  weather_forecast : Json
  route_plan : Json
  restaurant_recommendations : Json
  raw_plan : List Char

/-- The fallback value substituted for recommended_dates when nothing
truthy was extracted. -/
def datesFallback : Json :=
  Json.obj [("reasoning", Json.str "Unable to extract structured date recommendations.")]

/-- OrchestratorAgent._format_response.  Each section starts from its
empty initializer, is replaced by the extraction result when the plain
section name occurs in the output, and the final dict applies the Python
x or default idiom through truthy. -/
def format_response (loads : List Char → Option Json) (agent_response : AgentResponse)
    (starting_location : String) (trip_duration_days : Int) : TripPlan :=
  let output := agent_response.output
  let recommended_dates :=
    if containsSub "recommended_dates".toList output then
      extract_json_section loads output "recommended_dates".toList
    else Json.obj []
  let weather_forecast :=
    if containsSub "weather_forecast".toList output then
      extract_json_section loads output "weather_forecast".toList
    else Json.arr []
  let route_plan :=
    if containsSub "route_plan".toList output then
      extract_json_section loads output "route_plan".toList
    else Json.obj []
  let restaurant_recommendations :=
    if containsSub "restaurant_recommendations".toList output then
      extract_json_section loads output "restaurant_recommendations".toList
    else Json.arr []
  { starting_location := starting_location
    duration_days := trip_duration_days
    recommended_dates := if truthy recommended_dates then recommended_dates else datesFallback
    weather_forecast := if truthy weather_forecast then weather_forecast else Json.arr []
    route_plan := if truthy route_plan then route_plan else Json.obj []
    restaurant_recommendations :=
      if truthy restaurant_recommendations then restaurant_recommendations else Json.arr []
    raw_plan := output }

/-- Python round(x, 2) on the score values, over ℚ.  Python rounds float
ties to even while round on ℚ rounds them up; every theorem below only
uses the bound |roundTo2 x - x| <= 1/200, valid for both conventions. -/
def roundTo2 (x : ℚ) : ℚ := (round (100 * x) : ℚ) / 100

/-- Python round(x, 1), over ℚ; same convention caveat as roundTo2. -/
def roundTo1 (x : ℚ) : ℚ := (round (10 * x) : ℚ) / 10

/-- One day of weather data as drawn inside the loop of
_simulate_weather_data: the random.choice from weather_options together
with the random temperature variations, abstracted into a parameter. -/
structure WeatherDraw where
  condition : String
  description : String
  high_temp : Int
  low_temp : Int
  precipitation : Int

/-- One forecast entry appended by _simulate_weather_data. -/
structure Forecast where
  date : Int
  condition : String
  description : String
  high_temp_f : Int
  low_temp_f : Int
  precipitation_chance : Int

/-- Body of the while current_date <= end loop of _simulate_weather_data:
the loop runs once per day of the inclusive range, so its iteration count
is (end - start + 1).toNat, taken here as structural fuel; current_date
advances by one day per iteration. -/
def simulate_weather_loop (draw : Int → WeatherDraw) : Int → Nat → List Forecast
  | _, 0 => []
  | current_date, n + 1 =>
    { date := current_date
      condition := (draw current_date).condition
      description := (draw current_date).description
      high_temp_f := (draw current_date).high_temp
      low_temp_f := (draw current_date).low_temp
      precipitation_chance := (draw current_date).precipitation } ::
    simulate_weather_loop draw (current_date + 1) n

/-- WeatherTool._simulate_weather_data: walk the days from start_date to
end_date inclusive, appending one randomly drawn forecast per day. -/
def simulate_weather_data (draw : Int → WeatherDraw) (start_date end_date : Int) :
    List Forecast :=
  simulate_weather_loop draw start_date (end_date + 1 - start_date).toNat

/-- One route segment dict appended by _simulate_route_data.  The Python
keys from and to are Lean keywords, hence fromLoc and toLoc. -/
structure Segment where
  fromLoc : String
  toLoc : String
  distance_miles : ℚ
  duration_minutes : Int
  road_names : List String

/-- The dict returned by _simulate_route_data. -/
structure RouteData where
  segments : List Segment
  total_distance_miles : ℚ
  total_duration_minutes : Int
  total_duration_hours : ℚ

/-- The consecutive pairs (stops[i], stops[i+1]) visited by the
for i in range(len(stops) - 1) loop. -/
def segmentPairs : List String → List (String × String)
  | a :: b :: rest => (a, b) :: segmentPairs (b :: rest)
  | _ => []

/-- The segment dict built for one pair of consecutive stops; dist models
self._simulate_distance and roads models self._simulate_road_names (the
former computes with float sqrt, so it stays an explicit parameter). -/
def mkSegment (dist : String → String → ℚ) (roads : String → String → List String)
    (p : String × String) : Segment :=
  { fromLoc := p.1
    toLoc := p.2
    distance_miles := roundTo1 (dist p.1 p.2)
    duration_minutes := round (dist p.1 p.2 / 65 * 60)
    road_names := roads p.1 p.2 }

/-- The raw (unrounded) distance accumulated into total_distance for one
pair of stops. -/
def rawDistance (dist : String → String → ℚ) (p : String × String) : ℚ := dist p.1 p.2

/-- The raw (unrounded) duration in minutes accumulated into
total_duration for one pair of stops: distance / 65 * 60. -/
def rawDuration (dist : String → String → ℚ) (p : String × String) : ℚ :=
  dist p.1 p.2 / 65 * 60

/-- RoutePlannerTool._simulate_route_data: stops is origin, the waypoints
in order, then destination; one segment per consecutive pair; the totals
accumulate the unrounded per-segment values and are rounded once at the
end. -/
def simulate_route_data (dist : String → String → ℚ)
    (roads : String → String → List String)
    (origin destination : String) (waypoints : List String) : RouteData :=
  let stops := origin :: (waypoints ++ [destination])
  let pairs := segmentPairs stops
  let total_distance := (pairs.map (rawDistance dist)).sum
  let total_duration := (pairs.map (rawDuration dist)).sum
  { segments := pairs.map (mkSegment dist roads)
    total_distance_miles := roundTo1 total_distance
    total_duration_minutes := round total_duration
    total_duration_hours := roundTo1 (total_duration / 60) }

/-- One candidate date range appended by CalendarOptimizerTool._run, and
equally one entry of recommended_date_ranges in the calendar agent. -/
structure DateRangeScore where
  start_date : Int
  end_date : Int
  total_score : ℚ
  weather_score : ℚ
  crowd_score : ℚ
  wildlife_score : ℚ
deriving DecidableEq

/-- The candidate dict built for one possible start date: scores come
from the _simulate_*_score calls (random, hence parameters), the
composite is weather*0.4 + crowd*0.4 + wildlife*0.2, and all stored
values are rounded to two decimals. -/
def mkCandidate (wS cS wlS : Int → Int → ℚ) (trip_duration_days : Int)
    (current_date : Int) : DateRangeScore :=
  let trip_end := current_date + (trip_duration_days - 1)
  let weather_score := wS current_date trip_end
  let crowd_score := cS current_date trip_end
  let wildlife_score := wlS current_date trip_end
  let total_score := weather_score * 0.4 + crowd_score * 0.4 + wildlife_score * 0.2
  { start_date := current_date
    end_date := trip_end
    total_score := roundTo2 total_score
    weather_score := roundTo2 weather_score
    crowd_score := roundTo2 crowd_score
    wildlife_score := roundTo2 wildlife_score }

/-- The continue test at the top of the date loop of
CalendarOptimizerTool._run: when a preferred start weekday is given and
the lowercased weekday name of the current date differs from it, the date
is skipped.  dayNameLower models current_date.strftime with the weekday
format lowercased; pref is preferred_day_of_week_start. -/
def skipsDay (dayNameLower : Int → String) (pref : Option String)
    (current_date : Int) : Bool :=
  match pref with
  | some p => dayNameLower current_date ≠ p.toLower
  | none => false

/-- Body of the while current_date <= end_date - (duration - 1) loop of
CalendarOptimizerTool._run.  current_date advances by one day in both the
skip branch (preferred weekday mismatch) and the append branch, so the
iteration count is the length of the scanned window, taken as structural
fuel. -/
def calendar_loop (wS cS wlS : Int → Int → ℚ) (dayNameLower : Int → String)
    (pref : Option String) (trip_duration_days : Int) :
    Int → Nat → List DateRangeScore
  | _, 0 => []
  | current_date, n + 1 =>
    if skipsDay dayNameLower pref current_date then
      calendar_loop wS cS wlS dayNameLower pref trip_duration_days (current_date + 1) n
    else
      mkCandidate wS cS wlS trip_duration_days current_date ::
      calendar_loop wS cS wlS dayNameLower pref trip_duration_days (current_date + 1) n

/-- Insertion step of a stable descending sort on total_score: an element
is placed before the first element whose score does not exceed its own,
so earlier-generated elements stay first among equal scores. -/
def insertDesc (x : DateRangeScore) : List DateRangeScore → List DateRangeScore
  | [] => [x]
  | y :: l =>
    if y.total_score ≤ x.total_score then x :: y :: l else y :: insertDesc x l

/-- Stable descending sort on total_score, modelling the Python call
possible_dates.sort(key=lambda x: x[total_score key], reverse=True):
list.sort is stable, and with reverse=True equal keys keep their original
relative order, which is exactly what this insertion sort produces. -/
def sortDesc : List DateRangeScore → List DateRangeScore
  | [] => []
  | x :: l => insertDesc x (sortDesc l)

/-- CalendarOptimizerTool._run, returning the recommended_date_ranges
list (the accompanying reasoning string from _generate_reasoning is free
text derived from this list and is not modelled).  The while loop scans
start dates from travel_window_start while
current_date <= travel_window_end - (duration - 1). -/
def calendar_optimizer_run (wS cS wlS : Int → Int → ℚ) (dayNameLower : Int → String)
    (pref : Option String) (travel_window_start travel_window_end : Int)
    (trip_duration_days : Int) : List DateRangeScore :=
  let possible_dates :=
    calendar_loop wS cS wlS dayNameLower pref trip_duration_days travel_window_start
      ((travel_window_end - (trip_duration_days - 1)) + 1 - travel_window_start).toNat
  (sortDesc possible_dates).take 3

/-- The three configuration modes of config.AppMode. -/
inductive AppMode where
  | LOCAL_DUMMY : AppMode
  | AZURE_SUGGESTIONS : AppMode
  | LIVE_API : AppMode
deriving DecidableEq

/-- The observable state fixed by CalendarAgent.__init__: which tools are
attached and which system prompt is installed.  The constructor branches
once on is_azure_suggestions_mode or is_live_api_mode (no tools, the
suggestion prompt) versus everything else (the calendar optimizer and
Bing search tools, the dummy-branch prompt). -/
structure CalendarAgentState where
  tools : List String
  suggestionPrompt : Bool
deriving DecidableEq

/-- CalendarAgent.__init__ as a function of the configured mode. -/
def calendar_agent_init (mode : AppMode) : CalendarAgentState :=
  if mode = AppMode.AZURE_SUGGESTIONS ∨ mode = AppMode.LIVE_API then
    { tools := [], suggestionPrompt := true }
  else
    { tools := ["calendar_optimizer", "bing_search"], suggestionPrompt := false }

/-- The dict returned by the calendar agent in its structured modes. -/
structure CalDates where
  recommended_date_ranges : List DateRangeScore
  reasoning : String
  data_source : String
deriving DecidableEq

/-- CalendarAgent._get_dummy_dates.  offset models random.randint(7, 14),
so callers constrain it to 7 <= offset <= 14.  travel_window_end is a
parameter of the source method but is never read. -/
def get_dummy_dates (offset : Int) (travel_window_start travel_window_end : Int)
    (trip_duration_days : Int) : CalDates :=
  let recommended_start := travel_window_start + offset
  let recommended_end := recommended_start + (trip_duration_days - 1)
  { recommended_date_ranges :=
      [{ start_date := recommended_start
         end_date := recommended_end
         total_score := 0.85
         weather_score := 0.8
         crowd_score := 0.9
         wildlife_score := 0.85 }]
    reasoning := "Dummy recommendation for testing"
    data_source := "Local dummy data" }

/-- The i-th recommendation dict built by _parse_azure_response, with the
decreasing score pattern 0.9 - i*0.05 and so on. -/
def mkAzureRec (current_date : Int) (trip_duration_days : Int) (i : Nat) :
    DateRangeScore :=
  { start_date := current_date
    end_date := current_date + (trip_duration_days - 1)
    total_score := 0.9 - i * 0.05
    weather_score := 0.88 - i * 0.03
    crowd_score := 0.85 - i * 0.04
    wildlife_score := 0.92 - i * 0.03 }

/-- The for i in range(3) loop of _parse_azure_response, with j remaining
iterations (so the recommendation index is 3 - j).  current_date advances
only inside the if, so once the guard current_date + duration <= end
fails it fails for every later iteration and nothing more is appended;
returning at the first failure is therefore extensionally faithful. -/
def azure_recs_loop (endD : Int) (trip_duration_days : Int) (step : Int) :
    Int → Nat → List DateRangeScore
  | _, 0 => []
  | current_date, j + 1 =>
    if current_date + trip_duration_days ≤ endD then
      mkAzureRec current_date trip_duration_days (3 - (j + 1)) ::
      azure_recs_loop endD trip_duration_days step (current_date + step) j
    else []

/-- CalendarAgent._parse_azure_response: three spaced-out recommended
ranges plus the first 200 characters of the raw LLM text.  Python floor
division days_range // 4 is Int.fdiv. -/
def parse_azure_response (response : String)
    (travel_window_start travel_window_end : Int) (trip_duration_days : Int) :
    CalDates :=
  let days_range := travel_window_end - travel_window_start
  let step := max 10 (days_range.fdiv 4)
  { recommended_date_ranges :=
      azure_recs_loop travel_window_end trip_duration_days step travel_window_start 3
    reasoning := if response.length > 200 then response.take 200 else response
    data_source := "Azure OpenAI analysis of historical patterns" }

/-- The result of CalendarAgent.get_optimal_dates: a structured dict in
dummy and suggestion modes, the raw LLM output string in live mode. -/
inductive CalAgentResult where
  | structured (d : CalDates) : CalAgentResult
  | raw (s : String) : CalAgentResult
deriving DecidableEq

/-- CalendarAgent.get_optimal_dates.  The dispatch mirrors the source
exactly: it tests self.config.is_dummy_mode and then
self.config.is_azure_suggestions_mode at call time (cfgMode is the mode
the shared Config singleton holds when the call runs), and the state
st built by __init__ is not consulted to choose the branch.  llmOut
models response output from the agent executor in the two LLM branches,
offset the random draw of _get_dummy_dates. -/
def get_optimal_dates (st : CalendarAgentState) (cfgMode : AppMode) (llmOut : String)
    (offset : Int) (travel_window_start travel_window_end : Int)
    (trip_duration_days : Int) : CalAgentResult :=
  if cfgMode = AppMode.LOCAL_DUMMY then
    CalAgentResult.structured
      (get_dummy_dates offset travel_window_start travel_window_end trip_duration_days)
  else if cfgMode = AppMode.AZURE_SUGGESTIONS then
    CalAgentResult.structured
      (parse_azure_response llmOut travel_window_start travel_window_end
        trip_duration_days)
  else
    CalAgentResult.raw llmOut

/-- Python values stored in the preferences dict of plan_trip. -/
inductive PrefVal where
  | s (v : String) : PrefVal
  | ls (v : List String) : PrefVal
  | b (v : Bool) : PrefVal
deriving DecidableEq

/-- Python exceptions that escape the query construction. -/
inductive PyError where
  | keyError (k : String) : PyError
  | typeError : PyError
deriving DecidableEq

/-- Python dict.get(k): first binding for k, or None. -/
def pyGet (m : List (String × PrefVal)) (k : String) : Option PrefVal :=
  (m.find? (fun p => p.1 == k)).map (fun p => p.2)

/-- Python truthiness of a preference value, used by the
Yes if preferences.get(...) else No tests. -/
def pvTruthy : PrefVal → Bool
  | PrefVal.s v => v ≠ ""
  | PrefVal.ls v => !v.isEmpty
  | PrefVal.b v => v

/-- Rendering of a preference value inside the f-string (str(x)); list
values are abbreviated to their comma-joined elements, which is
immaterial to every theorem below. -/
def pvStr : PrefVal → String
  | PrefVal.s v => v
  | PrefVal.ls v => String.intercalate ", " v
  | PrefVal.b v => if v then "True" else "False"

/-- Python sep.join(x) as applied to preferences with the
preferred_cuisines key: joins a list of strings, joins the characters
when handed a single string, raises TypeError on anything else. -/
def pyJoin (sep : String) : PrefVal → Except PyError String
  | PrefVal.ls v => Except.ok (String.intercalate sep v)
  | PrefVal.s v => Except.ok (String.intercalate sep (v.toList.map (fun c => String.mk [c])))
  | PrefVal.b _ => Except.error PyError.typeError

/-- The defaults substituted in plan_trip when preferences is None. -/
def default_preferences : List (String × PrefVal) :=
  [("dining_budget", PrefVal.s "moderate"),
   ("preferred_cuisines", PrefVal.ls ["American", "Italian"]),
   ("accessibility_needs", PrefVal.b false),
   ("hiking_interest", PrefVal.b true)]

/-- Construction of the input_query f-string of plan_trip.  The f-string
subscripts preferences with dining_budget and then preferred_cuisines
directly (KeyError on a missing key, in that evaluation order), while
accessibility_needs and hiking_interest go through .get and never raise.
The surrounding prose of the query is condensed; only its data slots
matter here. -/
def build_input_query (starting_location : String)
    (travel_window_start travel_window_end : Int) (trip_duration_days : Int)
    (preferences : List (String × PrefVal)) : Except PyError String :=
  match pyGet preferences "dining_budget" with
  | none => Except.error (PyError.keyError "dining_budget")
  | some budget =>
    match pyGet preferences "preferred_cuisines" with
    | none => Except.error (PyError.keyError "preferred_cuisines")
    | some cuisines =>
      match pyJoin ", " cuisines with
      | Except.error e => Except.error e
      | Except.ok cuisineStr =>
        Except.ok
          (String.intercalate " "
            ["Plan a trip to Yellowstone National Park for",
             toString trip_duration_days, "days starting from", starting_location,
             "between", toString travel_window_start, "and",
             toString travel_window_end, "| dining budget", pvStr budget,
             "| cuisines", cuisineStr,
             "| accessibility",
             (match pyGet preferences "accessibility_needs" with
              | some v => if pvTruthy v then "Yes" else "No"
              | none => "No"),
             "| hiking",
             (match pyGet preferences "hiking_interest" with
              | some v => if pvTruthy v then "Yes" else "No"
              | none => "No")])

/-- OrchestratorAgent.plan_trip.  agent models the awaited
self.agent.ainvoke call (the LLM-driven executor); it is applied only
after the input query has been built, so a KeyError from the f-string
escapes before any agent runs.  loads is threaded to _format_response. -/
def plan_trip (loads : List Char → Option Json) (agent : String → AgentResponse)
    (starting_location : String) (travel_window_start travel_window_end : Int)
    (trip_duration_days : Int) (preferences : Option (List (String × PrefVal))) :
    Except PyError TripPlan :=
  let prefs :=
    match preferences with
    | none => default_preferences
    | some p => p
  match build_input_query starting_location travel_window_start travel_window_end
      trip_duration_days prefs with
  | Except.error e => Except.error e
  | Except.ok input_query =>
    Except.ok (format_response loads (agent input_query) starting_location
      trip_duration_days)

/-- Events of the agent-executor tool loop: a sub-agent request is issued,
later it resolves. -/
inductive ToolEvent where
  | issue (tool : String) : ToolEvent
  | resolve (tool : String) : ToolEvent
deriving DecidableEq

/-- The AgentExecutor loop of the orchestrator, as the source actually
runs it: the LLM (policy) picks at most one tool call per step from the
transcript so far, and the chosen tool runs to completion before the next
step because every orchestrator tool wraps its async agent in a blocking
asyncio.run inside BaseTool._run.  Each issued request therefore resolves
immediately in the event trace; fuel bounds the number of executor
steps. -/
def executor_trace (policy : List (String × String) → Option String)
    (toolRun : String → String) :
    List (String × String) → Nat → List ToolEvent
  | _, 0 => []
  | transcript, n + 1 =>
    match policy transcript with
    | none => []
    | some tool =>
      ToolEvent.issue tool :: ToolEvent.resolve tool ::
      executor_trace policy toolRun (transcript ++ [(tool, toolRun tool)]) n

/-- Number of issue events in a trace. -/
def issueCount (events : List ToolEvent) : Nat :=
  (events.filter (fun e => match e with | ToolEvent.issue _ => true | _ => false)).length

/-- Number of resolve events in a trace. -/
def resolveCount (events : List ToolEvent) : Nat :=
  (events.filter (fun e => match e with | ToolEvent.resolve _ => true | _ => false)).length

/-- The failure condition of _extract_json_section: the quoted section
name is not mentioned, or the text has no opening brace, or the brace
scan never balances, or json.loads rejects the candidate block.  In each
of these cases the source returns the per-section empty structure. -/
def ExtractionFails (loads : List Char → Option Json) (text sectionName : List Char) :
    Prop :=
  mentionOk sectionName text = false ∨
  fromFirstBrace text = none ∨
  (∃ s, fromFirstBrace text = some s ∧ balancedBlockFrom s = none) ∨
  (∃ s block, fromFirstBrace text = some s ∧ balancedBlockFrom s = some block ∧
    loads block = none)

/-- A json.loads model mapping every input to a parse failure; used to
instantiate theorems that hold for every loads function. -/
def loadsNone : List Char → Option Json := fun _ => none

/-- The characters of the object literal brace, quote, a, quote, colon,
space, 1, brace. -/
def blockA : List Char := "\x7b\"a\": 1\x7d".toList

/-- A concrete json.loads model agreeing with Python json.loads on the
two object literals used in the concrete inputs below, rejecting
everything else. -/
def loadsFix : List Char → Option Json := fun s =>
  if s = blockA then some (Json.obj [("a", Json.num 1)])
  else if s = "\x7b\x7d".toList then some (Json.obj [])
  else none

/-- A text in which a balanced object literal precedes the only (quoted)
mention of route_plan, with nothing after the mention. -/
def textBraceBeforeMention : List Char := "\x7b\"a\": 1\x7d \"route_plan\"".toList

/-- A text with the quoted mention first and an empty object after it. -/
def textMentionThenBlock : List Char := "\"route_plan\" \x7b\x7d".toList

/-- A constant weather draw for concrete instantiations. -/
def drawConst : Int → WeatherDraw :=
  fun _ => { condition := "Sunny", description := "Clear sky",
             high_temp := 75, low_temp := 45, precipitation := 0 }

/-- A constant score simulator for concrete instantiations. -/
def oneScore : Int → Int → ℚ := fun _ _ => 1

/-- A constant weekday name for concrete instantiations. -/
def dayNameConst : Int → String := fun _ => "monday"

/-- The single candidate produced by the calendar optimizer on a one-day
window with constant unit scores. -/
def candOne : DateRangeScore :=
  { start_date := 0, end_date := 0, total_score := 1, weather_score := 1,
    crowd_score := 1, wildlife_score := 1 }

/-- The simulated Seattle to Boise distance of _simulate_distance,
sqrt((43.6150 - 47.6062)^2 + (-116.2023 + 122.3321)^2) * 69.2, to five
decimals: 506.17387 miles.  Only its offset from a multiple of 0.1
matters to the rounding counterexample below. -/
def distSB : String → String → ℚ := fun _ _ => 50617387 / 100000

/-- An empty road-name simulator for concrete instantiations. -/
def roadsNone : String → String → List String := fun _ _ => []

/-- Seven waypoints alternating between the two cities, giving an
eight-segment route whose per-segment rounding errors accumulate. -/
def cexWaypoints : List String :=
  ["Boise", "Seattle", "Boise", "Seattle", "Boise", "Seattle", "Boise"]

/-- A two-step tool policy for concrete executor traces: call the weather
tool, then the route tool, then finish. -/
def seqPolicy : List (String × String) → Option String := fun transcript =>
  if transcript.length = 0 then some "weather_forecast"
  else if transcript.length = 1 then some "route_planner"
  else none

/-- A constant tool result for concrete executor traces. -/
def constToolRun : String → String := fun _ => "tool output"

/-- The dates of the simulated forecast starting at current_date with n
iterations left are current_date, current_date + 1, and so on. -/
theorem simulate_weather_loop_map_date (draw : Int → WeatherDraw) :
    ∀ (n : Nat) (c : Int),
      (simulate_weather_loop draw c n).map Forecast.date =
        (List.range n).map (fun (i : Nat) => c + (i : Int)) := by
  intro n
  induction n with
  | zero => intro c; simp [simulate_weather_loop]
  | succ k ih =>
    intro c
    rw [simulate_weather_loop, List.range_succ_eq_map]
    simp only [List.map_cons, List.map_map]
    rw [ih (c + 1)]
    refine congrArg₂ _ (by simp) ?_
    apply List.map_congr_left
    intro a _
    simp only [Function.comp_apply]
    push_cast
    ring

/-- C7: for start <= end, the simulated weather forecast has exactly
(end - start) + 1 entries, its dates are start, start+1, ..., end in
order (so consecutive ascending, no gaps), and the dates are strictly
increasing (so no duplicates). -/
theorem simulate_weather_one_entry_per_day (draw : Int → WeatherDraw)
    (start_date end_date : Int) (h : start_date ≤ end_date) :
    (simulate_weather_data draw start_date end_date).length
        = (end_date - start_date).toNat + 1 ∧
    (simulate_weather_data draw start_date end_date).map Forecast.date
        = (List.range ((end_date - start_date).toNat + 1)).map
            (fun (i : Nat) => start_date + (i : Int)) ∧
    (simulate_weather_data draw start_date end_date).Pairwise
      (fun a b => a.date < b.date) := by
  have hn : (end_date + 1 - start_date).toNat = (end_date - start_date).toNat + 1 := by
    omega
  have hmap := simulate_weather_loop_map_date draw ((end_date - start_date).toNat + 1)
    start_date
  unfold simulate_weather_data
  rw [hn]
  refine ⟨?_, hmap, ?_⟩
  · have hlen := congrArg List.length hmap
    simpa using hlen
  · have hpw : ((simulate_weather_loop draw start_date
        ((end_date - start_date).toNat + 1)).map Forecast.date).Pairwise
        (fun a b => a < b) := by
      rw [hmap]
      exact (List.pairwise_lt_range _).map _ (fun a b hab => by
        push_cast; omega)
    exact List.pairwise_map.mp hpw

/-- Witness for C7 at draw = drawConst, start 0, end 2. -/
theorem simulate_weather_one_entry_per_day_witness :
    (0 : Int) ≤ 2 ∧
    ((simulate_weather_data drawConst 0 2).length = ((2 : Int) - 0).toNat + 1 ∧
     (simulate_weather_data drawConst 0 2).map Forecast.date
        = (List.range (((2 : Int) - 0).toNat + 1)).map
            (fun (i : Nat) => (0 : Int) + (i : Int)) ∧
     (simulate_weather_data drawConst 0 2).Pairwise (fun a b => a.date < b.date)) :=
  ⟨by norm_num, simulate_weather_one_entry_per_day drawConst 0 2 (by norm_num)⟩

/-- C10: in dummy mode the calendar agent returns exactly one date range;
its end is its start plus duration minus one, its start is 7 to 14 days
after the window start, the result never depends on the window end, and
for some valid inputs the range therefore ends after the window end. -/
theorem get_dummy_dates_range_spec (offset travel_window_start travel_window_end
    trip_duration_days : Int) (h7 : 7 ≤ offset) (h14 : offset ≤ 14) :
    (∃ r, (get_dummy_dates offset travel_window_start travel_window_end
        trip_duration_days).recommended_date_ranges = [r] ∧
      r.end_date = r.start_date + (trip_duration_days - 1) ∧
      travel_window_start + 7 ≤ r.start_date ∧
      r.start_date ≤ travel_window_start + 14) ∧
    (∀ we2 : Int, get_dummy_dates offset travel_window_start we2 trip_duration_days
        = get_dummy_dates offset travel_window_start travel_window_end
            trip_duration_days) ∧
    (∃ offA wsA weA durA : Int, 7 ≤ offA ∧ offA ≤ 14 ∧ 1 ≤ durA ∧ durA ≤ 14 ∧
      durA ≤ weA - wsA ∧
      ∀ r ∈ (get_dummy_dates offA wsA weA durA).recommended_date_ranges,
        weA < r.end_date) := by
  refine ⟨⟨_, rfl, rfl, by dsimp only; omega, by dsimp only; omega⟩, fun we2 => rfl,
    7, 0, 3, 3, by norm_num, by norm_num, by norm_num, by norm_num, by norm_num, ?_⟩
  intro r hr
  simp only [get_dummy_dates, List.mem_singleton] at hr
  subst hr
  norm_num

/-- Witness for C10 at offset 7, window 0 to 100, duration 5. -/
theorem get_dummy_dates_range_spec_witness :
    (7 : Int) ≤ 7 ∧ (7 : Int) ≤ 14 ∧
    ((∃ r, (get_dummy_dates 7 0 100 5).recommended_date_ranges = [r] ∧
      r.end_date = r.start_date + ((5 : Int) - 1) ∧
      (0 : Int) + 7 ≤ r.start_date ∧ r.start_date ≤ (0 : Int) + 14) ∧
    (∀ we2 : Int, get_dummy_dates 7 0 we2 5 = get_dummy_dates 7 0 100 5) ∧
    (∃ offA wsA weA durA : Int, 7 ≤ offA ∧ offA ≤ 14 ∧ 1 ≤ durA ∧ durA ≤ 14 ∧
      durA ≤ weA - wsA ∧
      ∀ r ∈ (get_dummy_dates offA wsA weA durA).recommended_date_ranges,
        weA < r.end_date)) :=
  ⟨le_refl 7, by norm_num, get_dummy_dates_range_spec 7 0 100 5 (le_refl 7) (by norm_num)⟩

/-- C8 counterexample: one and the same calendar agent instance
(constructed while the configured mode was AZURE_SUGGESTIONS) serves a
call with the dummy-data strategy when the shared config holds
LOCAL_DUMMY at call time and with the LLM-suggestion strategy when it
holds AZURE_SUGGESTIONS, so the strategy is chosen per call from the
mode, not fixed at construction. -/
theorem get_optimal_dates_call_mode_divergence :
    get_optimal_dates (calendar_agent_init AppMode.AZURE_SUGGESTIONS)
        AppMode.LOCAL_DUMMY "llm output" 7 0 30 4
      = CalAgentResult.structured (get_dummy_dates 7 0 30 4) ∧
    get_optimal_dates (calendar_agent_init AppMode.AZURE_SUGGESTIONS)
        AppMode.AZURE_SUGGESTIONS "llm output" 7 0 30 4
      = CalAgentResult.structured (parse_azure_response "llm output" 0 30 4) ∧
    get_optimal_dates (calendar_agent_init AppMode.AZURE_SUGGESTIONS)
        AppMode.LOCAL_DUMMY "llm output" 7 0 30 4
      ≠ get_optimal_dates (calendar_agent_init AppMode.AZURE_SUGGESTIONS)
        AppMode.AZURE_SUGGESTIONS "llm output" 7 0 30 4 := by
  refine ⟨rfl, rfl, ?_⟩
  intro h
  have hr := congrArg (fun r => match r with
    | CalAgentResult.structured d => d.reasoning
    | CalAgentResult.raw s => s) h
  simp only [get_optimal_dates, get_dummy_dates, parse_azure_response] at hr
  rw [if_neg (by decide : ¬ (200 < "llm output".length))] at hr
  exact absurd hr (by decide)

/-- C8 amended: the state built by the constructor never influences which
strategy a call runs; get_optimal_dates dispatches purely on the mode the
shared config holds at call time, running the dummy-data, LLM-parse or
raw-output strategy for the three modes respectively. -/
theorem get_optimal_dates_ignores_construction_state :
    (∀ (st st' : CalendarAgentState) (cfgMode : AppMode) (llmOut : String)
        (offset ws we dur : Int),
      get_optimal_dates st cfgMode llmOut offset ws we dur =
        get_optimal_dates st' cfgMode llmOut offset ws we dur) ∧
    (∀ (st : CalendarAgentState) (llmOut : String) (offset ws we dur : Int),
      get_optimal_dates st AppMode.LOCAL_DUMMY llmOut offset ws we dur =
        CalAgentResult.structured (get_dummy_dates offset ws we dur) ∧
      get_optimal_dates st AppMode.AZURE_SUGGESTIONS llmOut offset ws we dur =
        CalAgentResult.structured (parse_azure_response llmOut ws we dur) ∧
      get_optimal_dates st AppMode.LIVE_API llmOut offset ws we dur =
        CalAgentResult.raw llmOut) :=
  ⟨fun _ _ _ _ _ _ _ _ => rfl, fun _ _ _ _ _ _ => ⟨rfl, rfl, rfl⟩⟩

/-- C9: when a preferences dict is passed but lacks dining_budget or
preferred_cuisines, plan_trip raises that KeyError while building the
input query, before the agent is ever invoked (the outcome is the same
for any two agents), whereas passing None substitutes the defaults and
the call proceeds to a trip plan. -/
theorem plan_trip_missing_pref_key_raises (loads : List Char → Option Json)
    (agent agent' : String → AgentResponse) (loc : String) (ws we dur : Int)
    (prefs : List (String × PrefVal))
    (h : pyGet prefs "dining_budget" = none ∨ pyGet prefs "preferred_cuisines" = none) :
    (∃ k, (k = "dining_budget" ∨ k = "preferred_cuisines") ∧
      plan_trip loads agent loc ws we dur (some prefs) =
        Except.error (PyError.keyError k)) ∧
    plan_trip loads agent loc ws we dur (some prefs) =
      plan_trip loads agent' loc ws we dur (some prefs) ∧
    (∃ plan, plan_trip loads agent loc ws we dur none = Except.ok plan) := by
  have hnone : ∃ plan, plan_trip loads agent loc ws we dur none = Except.ok plan :=
    ⟨_, rfl⟩
  rcases h with h | h
  · refine ⟨⟨"dining_budget", Or.inl rfl, ?_⟩, ?_, hnone⟩ <;>
      simp [plan_trip, build_input_query, h]
  · cases hd : pyGet prefs "dining_budget" with
    | none =>
      refine ⟨⟨"dining_budget", Or.inl rfl, ?_⟩, ?_, hnone⟩ <;>
        simp [plan_trip, build_input_query, hd]
    | some v =>
      refine ⟨⟨"preferred_cuisines", Or.inr rfl, ?_⟩, ?_, hnone⟩ <;>
        simp [plan_trip, build_input_query, hd, h]

/-- Witness for C9 at a one-key preferences dict lacking both required
keys. -/
theorem plan_trip_missing_pref_key_raises_witness :
    (pyGet [("accessibility_needs", PrefVal.b false)] "dining_budget" = none ∨
     pyGet [("accessibility_needs", PrefVal.b false)] "preferred_cuisines" = none) ∧
    ((∃ k, (k = "dining_budget" ∨ k = "preferred_cuisines") ∧
      plan_trip loadsNone (fun _ => AgentResponse.mk "out".toList) "Denver" 0 30 4
          (some [("accessibility_needs", PrefVal.b false)]) =
        Except.error (PyError.keyError k)) ∧
    plan_trip loadsNone (fun _ => AgentResponse.mk "out".toList) "Denver" 0 30 4
        (some [("accessibility_needs", PrefVal.b false)]) =
      plan_trip loadsNone (fun _ => AgentResponse.mk "other".toList) "Denver" 0 30 4
        (some [("accessibility_needs", PrefVal.b false)]) ∧
    (∃ plan, plan_trip loadsNone (fun _ => AgentResponse.mk "out".toList) "Denver" 0 30 4
        none = Except.ok plan)) :=
  ⟨Or.inl rfl,
   plan_trip_missing_pref_key_raises loadsNone (fun _ => AgentResponse.mk "out".toList)
     (fun _ => AgentResponse.mk "other".toList) "Denver" 0 30 4
     [("accessibility_needs", PrefVal.b false)] (Or.inl rfl)⟩

/-- C1: when no truthy structured data is extracted for any section,
_format_response returns the plan with every field present and
defaulted: the reasoning-only recommended_dates, empty weather list,
empty route dict, empty restaurant list, and the agent text verbatim in
raw_plan. -/
theorem format_response_defaults_when_no_extraction
    (loads : List Char → Option Json) (resp : AgentResponse) (loc : String) (dur : Int)
    (h1 : containsSub "recommended_dates".toList resp.output = true →
      truthy (extract_json_section loads resp.output "recommended_dates".toList) = false)
    (h2 : containsSub "weather_forecast".toList resp.output = true →
      truthy (extract_json_section loads resp.output "weather_forecast".toList) = false)
    (h3 : containsSub "route_plan".toList resp.output = true →
      truthy (extract_json_section loads resp.output "route_plan".toList) = false)
    (h4 : containsSub "restaurant_recommendations".toList resp.output = true →
      truthy (extract_json_section loads resp.output "restaurant_recommendations".toList)
        = false) :
    format_response loads resp loc dur =
      { starting_location := loc
        duration_days := dur
        recommended_dates := datesFallback
        weather_forecast := Json.arr []
        route_plan := Json.obj []
        restaurant_recommendations := Json.arr []
        raw_plan := resp.output } := by
  have e1 : truthy (if containsSub "recommended_dates".toList resp.output then
      extract_json_section loads resp.output "recommended_dates".toList
      else Json.obj []) = false := by
    cases hc : containsSub "recommended_dates".toList resp.output with
    | false => simp [hc, truthy]
    | true => simpa [hc] using h1 hc
  have e2 : truthy (if containsSub "weather_forecast".toList resp.output then
      extract_json_section loads resp.output "weather_forecast".toList
      else Json.arr []) = false := by
    cases hc : containsSub "weather_forecast".toList resp.output with
    | false => simp [hc, truthy]
    | true => simpa [hc] using h2 hc
  have e3 : truthy (if containsSub "route_plan".toList resp.output then
      extract_json_section loads resp.output "route_plan".toList
      else Json.obj []) = false := by
    cases hc : containsSub "route_plan".toList resp.output with
    | false => simp [hc, truthy]
    | true => simpa [hc] using h3 hc
  have e4 : truthy (if containsSub "restaurant_recommendations".toList resp.output then
      extract_json_section loads resp.output "restaurant_recommendations".toList
      else Json.arr []) = false := by
    cases hc : containsSub "restaurant_recommendations".toList resp.output with
    | false => simp [hc, truthy]
    | true => simpa [hc] using h4 hc
  simp only [format_response, TripPlan.mk.injEq]
  refine ⟨trivial, trivial, ?_, ?_, ?_, ?_, trivial⟩
  · simp only [e1]; simp
  · simp only [e2]; simp
  · simp only [e3]; simp
  · simp only [e4]; simp

/-- Witness for C1 at an output mentioning no section at all. -/
theorem format_response_defaults_witness :
    (containsSub "recommended_dates".toList (AgentResponse.mk "hello".toList).output = true →
      truthy (extract_json_section loadsNone (AgentResponse.mk "hello".toList).output
        "recommended_dates".toList) = false) ∧
    (containsSub "weather_forecast".toList (AgentResponse.mk "hello".toList).output = true →
      truthy (extract_json_section loadsNone (AgentResponse.mk "hello".toList).output
        "weather_forecast".toList) = false) ∧
    (containsSub "route_plan".toList (AgentResponse.mk "hello".toList).output = true →
      truthy (extract_json_section loadsNone (AgentResponse.mk "hello".toList).output
        "route_plan".toList) = false) ∧
    (containsSub "restaurant_recommendations".toList
        (AgentResponse.mk "hello".toList).output = true →
      truthy (extract_json_section loadsNone (AgentResponse.mk "hello".toList).output
        "restaurant_recommendations".toList) = false) ∧
    format_response loadsNone (AgentResponse.mk "hello".toList) "Denver" 4 =
      { starting_location := "Denver"
        duration_days := 4
        recommended_dates := datesFallback
        weather_forecast := Json.arr []
        route_plan := Json.obj []
        restaurant_recommendations := Json.arr []
        raw_plan := (AgentResponse.mk "hello".toList).output } :=
  ⟨by decide, by decide, by decide, by decide,
   format_response_defaults_when_no_extraction loadsNone (AgentResponse.mk "hello".toList)
     "Denver" 4 (by decide) (by decide) (by decide) (by decide)⟩

/-- When nothing truthy replaces a section, the aggregated field is the
non-null fallback; a field holding a truthy value is not null either. -/
theorem truthy_ite_ne_null (x fallback : Json) (hd : fallback ≠ Json.null) :
    (if truthy x then x else fallback) ≠ Json.null := by
  by_cases h : truthy x = true
  · simp only [h, if_true]
    intro hx
    rw [hx] at h
    simp [truthy] at h
  · simp [h, hd]

/-- C4: extraction is total with the documented per-section fallbacks on
every failure (no mention, no brace, unbalanced scan, parse error), and
_format_response always returns a complete plan: raw_plan carries the
agent text and no aggregated section is null. -/
theorem extract_and_format_never_raise
    (loads : List Char → Option Json) (text sectionName : List Char)
    (resp : AgentResponse) (loc : String) (dur : Int)
    (h : ExtractionFails loads text sectionName) :
    extract_json_section loads text sectionName =
      (if sectionName = "recommended_dates".toList ∨ sectionName = "route_plan".toList
       then Json.obj [] else Json.arr []) ∧
    (format_response loads resp loc dur).raw_plan = resp.output ∧
    (format_response loads resp loc dur).recommended_dates ≠ Json.null ∧
    (format_response loads resp loc dur).weather_forecast ≠ Json.null ∧
    (format_response loads resp loc dur).route_plan ≠ Json.null ∧
    (format_response loads resp loc dur).restaurant_recommendations ≠ Json.null := by
  refine ⟨?_, ?_, ?_, ?_, ?_, ?_⟩
  · rcases h with h | h | ⟨s, hs, hb⟩ | ⟨s, block, hs, hb, hl⟩
    · simp [extract_json_section, emptySection, h]
    · by_cases hm : mentionOk sectionName text = true <;>
        simp [extract_json_section, emptySection, hm, h]
    · by_cases hm : mentionOk sectionName text = true <;>
        simp [extract_json_section, emptySection, hm, hs, hb]
    · by_cases hm : mentionOk sectionName text = true <;>
        simp [extract_json_section, emptySection, hm, hs, hb, hl]
  · simp [format_response]
  · exact truthy_ite_ne_null _ _ (by simp [datesFallback])
  · exact truthy_ite_ne_null _ _ (by simp)
  · exact truthy_ite_ne_null _ _ (by simp)
  · exact truthy_ite_ne_null _ _ (by simp)

/-- Witness for C4 at a text with no brace and no mention. -/
theorem extract_and_format_never_raise_witness :
    ExtractionFails loadsNone "abc".toList "weather_forecast".toList ∧
    (extract_json_section loadsNone "abc".toList "weather_forecast".toList =
      (if "weather_forecast".toList = "recommended_dates".toList ∨
          "weather_forecast".toList = "route_plan".toList
       then Json.obj [] else Json.arr []) ∧
    (format_response loadsNone (AgentResponse.mk "xyz".toList) "Denver" 4).raw_plan =
      (AgentResponse.mk "xyz".toList).output ∧
    (format_response loadsNone (AgentResponse.mk "xyz".toList) "Denver" 4).recommended_dates
      ≠ Json.null ∧
    (format_response loadsNone (AgentResponse.mk "xyz".toList) "Denver" 4).weather_forecast
      ≠ Json.null ∧
    (format_response loadsNone (AgentResponse.mk "xyz".toList) "Denver" 4).route_plan
      ≠ Json.null ∧
    (format_response loadsNone (AgentResponse.mk "xyz".toList) "Denver"
      4).restaurant_recommendations ≠ Json.null) :=
  ⟨Or.inl (by decide),
   extract_and_format_never_raise loadsNone "abc".toList "weather_forecast".toList
     (AgentResponse.mk "xyz".toList) "Denver" 4 (Or.inl (by decide))⟩

/-- The suffix found by fromFirstBrace starts at the first opening brace
of the text: the dropped prefix holds no opening brace and the suffix
begins with one. -/
theorem fromFirstBrace_spec :
    ∀ (text s : List Char), fromFirstBrace text = some s →
      ∃ pre, text = pre ++ s ∧ braceOpen ∉ pre ∧ ∃ t, s = braceOpen :: t := by
  intro text
  induction text with
  | nil => intro s h; simp [fromFirstBrace] at h
  | cons c rest ih =>
    intro s h
    rw [fromFirstBrace] at h
    by_cases hc : c = braceOpen
    · rw [if_pos hc] at h
      have hs : c :: rest = s := Option.some.inj h
      refine ⟨[], by simp [hs], by simp, rest, ?_⟩
      rw [← hs, hc]
    · rw [if_neg hc] at h
      obtain ⟨pre, hpre, hnb, t, ht⟩ := ih s h
      refine ⟨c :: pre, by simp [hpre], ?_, t, ht⟩
      intro hmem
      rcases List.mem_cons.mp hmem with hh | hh
      · exact hc hh.symm
      · exact hnb hh

/-- The brace-matching scan returns a prefix of the remaining text whose
closing-brace count exceeds its opening-brace count by exactly the
starting open_count: the returned block is balanced. -/
theorem matchedBlock_spec :
    ∀ (cs : List Char) (n : Nat) (m : List Char), 1 ≤ n → matchedBlock cs n = some m →
      m <+: cs ∧ m.count braceClose = m.count braceOpen + n := by
  intro cs
  induction cs with
  | nil => intro n m _ h; simp [matchedBlock] at h
  | cons c rest ih =>
    intro n m hn h
    rw [matchedBlock] at h
    by_cases h1 : c = braceOpen
    · rw [if_pos h1] at h
      obtain ⟨m2, hm2, hb⟩ := Option.map_eq_some'.mp h
      obtain ⟨hpre, hcount⟩ := ih (n + 1) m2 (by omega) hm2
      obtain ⟨t, ht⟩ := hpre
      subst hb
      subst h1
      refine ⟨⟨t, by simp [ht]⟩, ?_⟩
      rw [List.count_cons_self, List.count_cons_of_ne (by decide : braceClose ≠ braceOpen)]
      omega
    · rw [if_neg h1] at h
      by_cases h2 : c = braceClose
      · rw [if_pos h2] at h
        by_cases h3 : n = 1
        · rw [if_pos h3] at h
          have hm : [c] = m := Option.some.inj h
          subst hm
          subst h2
          subst h3
          exact ⟨⟨rest, rfl⟩, by decide⟩
        · rw [if_neg h3] at h
          obtain ⟨m2, hm2, hb⟩ := Option.map_eq_some'.mp h
          obtain ⟨hpre, hcount⟩ := ih (n - 1) m2 (by omega) hm2
          obtain ⟨t, ht⟩ := hpre
          subst hb
          subst h2
          refine ⟨⟨t, by simp [ht]⟩, ?_⟩
          rw [List.count_cons_self,
            List.count_cons_of_ne (by decide : braceOpen ≠ braceClose)]
          omega
      · rw [if_neg h2] at h
        obtain ⟨m2, hm2, hb⟩ := Option.map_eq_some'.mp h
        obtain ⟨hpre, hcount⟩ := ih n m2 hn hm2
        obtain ⟨t, ht⟩ := hpre
        subst hb
        refine ⟨⟨t, by simp [ht]⟩, ?_⟩
        rw [List.count_cons_of_ne (fun hh => h2 hh.symm),
          List.count_cons_of_ne (fun hh => h1 hh.symm)]
        omega

/-- C3 counterexample: in a text where a balanced object literal sits
entirely before the only mention of route_plan (and nothing follows the
mention), the extraction still returns that object, although per the
claim no balanced block follows the first mention and the empty
structure should be returned. -/
theorem extract_json_section_ignores_mention_position :
    afterFirstSub (quoteD :: ("route_plan".toList ++ [quoteD])) textBraceBeforeMention
        = some [] ∧
    extract_json_section loadsFix textBraceBeforeMention "route_plan".toList
        = Json.obj [("a", Json.num 1)] ∧
    extract_json_section loadsFix textBraceBeforeMention "route_plan".toList
        ≠ emptySection "route_plan".toList := by
  refine ⟨by decide, rfl, ?_⟩
  intro hcontra
  rw [show extract_json_section loadsFix textBraceBeforeMention "route_plan".toList
      = Json.obj [("a", Json.num 1)] from rfl] at hcontra
  simp [emptySection] at hcontra

/-- C3 amended: the extraction looks for the first opening brace anywhere
in the text (not necessarily after the mention of the section name); when
the quoted section name is mentioned, a balanced block starts there and
json.loads accepts it, that parsed value is returned.  The block is a
prefix of the suffix at the first brace, starts with the brace, is
nonempty and has equally many opening and closing braces. -/
theorem extract_json_section_first_brace_block
    (loads : List Char → Option Json) (text sectionName s block : List Char) (j : Json)
    (hm : mentionOk sectionName text = true)
    (hf : fromFirstBrace text = some s)
    (hb : balancedBlockFrom s = some block)
    (hl : loads block = some j) :
    extract_json_section loads text sectionName = j ∧
    (∃ pre, text = pre ++ s ∧ braceOpen ∉ pre ∧ ∃ t, s = braceOpen :: t) ∧
    block <+: s ∧
    block.count braceOpen = block.count braceClose ∧
    block ≠ [] := by
  have hb0 := hb
  obtain ⟨pre, hpre, hnb, t, ht⟩ := fromFirstBrace_spec text s hf
  rw [ht, balancedBlockFrom] at hb
  obtain ⟨m, hmtch, hbm⟩ := Option.map_eq_some'.mp hb
  obtain ⟨hmpre, hmcount⟩ := matchedBlock_spec t 1 m (le_refl 1) hmtch
  obtain ⟨t2, ht2⟩ := hmpre
  refine ⟨?_, ⟨pre, hpre, hnb, t, ht⟩, ?_, ?_, ?_⟩
  · simp [extract_json_section, hm, hf, hb0, hl]
  · rw [ht, ← hbm]
    exact ⟨t2, by simp [ht2]⟩
  · rw [← hbm, List.count_cons_self,
      List.count_cons_of_ne (by decide : braceClose ≠ braceOpen)]
    omega
  · rw [← hbm]
    simp

/-- Witness for the amended C3 at a text with the mention first and an
empty object literal after it. -/
theorem extract_json_section_first_brace_block_witness :
    mentionOk "route_plan".toList textMentionThenBlock = true ∧
    fromFirstBrace textMentionThenBlock = some "\x7b\x7d".toList ∧
    balancedBlockFrom "\x7b\x7d".toList = some "\x7b\x7d".toList ∧
    loadsFix "\x7b\x7d".toList = some (Json.obj []) ∧
    (extract_json_section loadsFix textMentionThenBlock "route_plan".toList
        = Json.obj [] ∧
    (∃ pre, textMentionThenBlock = pre ++ "\x7b\x7d".toList ∧ braceOpen ∉ pre ∧
      ∃ t, "\x7b\x7d".toList = braceOpen :: t) ∧
    "\x7b\x7d".toList <+: "\x7b\x7d".toList ∧
    ("\x7b\x7d".toList).count braceOpen = ("\x7b\x7d".toList).count braceClose ∧
    "\x7b\x7d".toList ≠ []) :=
  ⟨by decide, by decide, by decide, rfl,
   extract_json_section_first_brace_block loadsFix textMentionThenBlock
     "route_plan".toList "\x7b\x7d".toList "\x7b\x7d".toList (Json.obj [])
     (by decide) (by decide) (by decide) rfl⟩

/-- Rounding to an integer moves a rational by at most 1/2, stated with
the rounded value first. -/
theorem round_abs_sub (x : ℚ) : |((round x : Int) : ℚ) - x| ≤ 1 / 2 := by
  rw [abs_sub_comm]
  exact abs_sub_round x

/-- Rounding to one decimal moves a rational by at most 1/20. -/
theorem roundTo1_abs (x : ℚ) : |roundTo1 x - x| ≤ 1 / 20 := by
  have h := round_abs_sub (10 * x)
  have heq : roundTo1 x - x = ((round (10 * x) : ℚ) - 10 * x) / 10 := by
    unfold roundTo1; ring
  rw [heq, abs_div, show |(10 : ℚ)| = 10 from by norm_num]
  linarith

/-- Rounding to two decimals moves a rational by at most 1/200. -/
theorem roundTo2_abs (x : ℚ) : |roundTo2 x - x| ≤ 1 / 200 := by
  have h := round_abs_sub (100 * x)
  have heq : roundTo2 x - x = ((round (100 * x) : ℚ) - 100 * x) / 100 := by
    unfold roundTo2; ring
  rw [heq, abs_div, show |(100 : ℚ)| = 100 from by norm_num]
  linarith

/-- Summing pointwise-close functions keeps the sums within length times
the pointwise bound. -/
theorem sum_map_abs_le {α : Type} (f g : α → ℚ) (c : ℚ) (h : ∀ a, |f a - g a| ≤ c) :
    ∀ xs : List α, |(xs.map f).sum - (xs.map g).sum| ≤ xs.length * c := by
  intro xs
  induction xs with
  | nil => simp
  | cons a l ih =>
    simp only [List.map_cons, List.sum_cons, List.length_cons]
    have habs : |f a + (l.map f).sum - (g a + (l.map g).sum)|
        ≤ |f a - g a| + |(l.map f).sum - (l.map g).sum| := by
      have htri := abs_add (f a - g a) ((l.map f).sum - (l.map g).sum)
      calc |f a + (l.map f).sum - (g a + (l.map g).sum)|
          = |(f a - g a) + ((l.map f).sum - (l.map g).sum)| := by ring_nf
        _ ≤ _ := htri
    calc |f a + (l.map f).sum - (g a + (l.map g).sum)|
        ≤ |f a - g a| + |(l.map f).sum - (l.map g).sum| := habs
      _ ≤ c + (l.length : ℚ) * c := add_le_add (h a) ih
      _ = ((l.length : ℚ) + 1) * c := by ring
      _ = ((l.length + 1 : Nat) : ℚ) * c := by push_cast; ring

/-- The first components of the consecutive-stop pairs are all stops but
the last. -/
theorem segmentPairs_map_fst :
    ∀ l : List String, (segmentPairs l).map Prod.fst = l.dropLast := by
  intro l
  induction l with
  | nil => simp [segmentPairs]
  | cons a rest ih =>
    cases rest with
    | nil => simp [segmentPairs]
    | cons b r =>
      rw [show segmentPairs (a :: b :: r) = (a, b) :: segmentPairs (b :: r) from rfl,
        List.map_cons, ih]
      rfl

/-- The second components of the consecutive-stop pairs are all stops but
the first. -/
theorem segmentPairs_map_snd :
    ∀ l : List String, (segmentPairs l).map Prod.snd = l.tail := by
  intro l
  induction l with
  | nil => simp [segmentPairs]
  | cons a rest ih =>
    cases rest with
    | nil => simp [segmentPairs]
    | cons b r =>
      rw [show segmentPairs (a :: b :: r) = (a, b) :: segmentPairs (b :: r) from rfl,
        List.map_cons, ih]
      rfl

/-- Consecutive-stop pairs chain: each pair ends where the next one
starts. -/
theorem segmentPairs_chain :
    ∀ l : List String,
      List.Chain' (fun p q : String × String => p.2 = q.1) (segmentPairs l) := by
  intro l
  induction l with
  | nil => simp [segmentPairs]
  | cons a rest ih =>
    cases rest with
    | nil => simp [segmentPairs]
    | cons b r =>
      rw [show segmentPairs (a :: b :: r) = (a, b) :: segmentPairs (b :: r) from rfl,
        List.chain'_cons']
      refine ⟨?_, ih⟩
      intro h hh
      cases r with
      | nil => simp [segmentPairs] at hh
      | cons c r2 =>
        rw [show segmentPairs (b :: c :: r2) = (b, c) :: segmentPairs (c :: r2) from rfl]
          at hh
        simp only [List.head?_cons, Option.mem_some_iff] at hh
        rw [← hh]

/-- Totals versus per-segment values for an arbitrary pair list: the
rounded total distance is within (n+1)/20 of the summed rounded segment
distances, and the rounded total hours are within 1/20 + n/120 of the
summed rounded segment minutes divided by 60. -/
theorem route_totals_bound (dist : String → String → ℚ)
    (roads : String → String → List String) (prs : List (String × String)) :
    |roundTo1 ((prs.map (rawDistance dist)).sum) -
        ((prs.map (mkSegment dist roads)).map Segment.distance_miles).sum|
      ≤ (((prs.map (mkSegment dist roads)).length : ℚ) + 1) / 20 ∧
    |roundTo1 ((prs.map (rawDuration dist)).sum / 60) -
        ((prs.map (mkSegment dist roads)).map (fun s => (s.duration_minutes : ℚ))).sum / 60|
      ≤ 1 / 20 + ((prs.map (mkSegment dist roads)).length : ℚ) / 120 := by
  rw [List.map_map, List.map_map, List.length_map]
  have hcompD : (Segment.distance_miles ∘ mkSegment dist roads)
      = (fun p => roundTo1 (rawDistance dist p)) := funext fun p => rfl
  have hcompM : ((fun s => (s.duration_minutes : ℚ)) ∘ mkSegment dist roads)
      = (fun p => ((round (rawDuration dist p) : Int) : ℚ)) := funext fun p => rfl
  rw [hcompD, hcompM]
  constructor
  · have h1 := roundTo1_abs ((prs.map (rawDistance dist)).sum)
    have h2 := sum_map_abs_le (fun p => roundTo1 (rawDistance dist p)) (rawDistance dist)
      (1 / 20) (fun p => roundTo1_abs _) prs
    calc |roundTo1 ((prs.map (rawDistance dist)).sum) -
            (prs.map (fun p => roundTo1 (rawDistance dist p))).sum|
        ≤ |roundTo1 ((prs.map (rawDistance dist)).sum) - (prs.map (rawDistance dist)).sum|
          + |(prs.map (rawDistance dist)).sum -
              (prs.map (fun p => roundTo1 (rawDistance dist p))).sum| :=
          abs_sub_le _ _ _
      _ ≤ 1 / 20 + (prs.length : ℚ) * (1 / 20) := by
          refine add_le_add h1 ?_
          rw [abs_sub_comm]
          exact h2
      _ = ((prs.length : ℚ) + 1) / 20 := by ring
  · have h1 := roundTo1_abs ((prs.map (rawDuration dist)).sum / 60)
    have h2 := sum_map_abs_le (fun p => ((round (rawDuration dist p) : Int) : ℚ))
      (rawDuration dist) (1 / 2) (fun p => round_abs_sub _) prs
    have h3 : |(prs.map (rawDuration dist)).sum / 60 -
        (prs.map (fun p => ((round (rawDuration dist p) : Int) : ℚ))).sum / 60|
        ≤ ((prs.length : ℚ) * (1 / 2)) / 60 := by
      rw [div_sub_div_same, abs_div, show |(60 : ℚ)| = 60 from by norm_num]
      have hnum : |(prs.map (rawDuration dist)).sum -
          (prs.map (fun p => ((round (rawDuration dist p) : Int) : ℚ))).sum|
          ≤ (prs.length : ℚ) * (1 / 2) := by
        rw [abs_sub_comm]
        exact h2
      linarith
    calc |roundTo1 ((prs.map (rawDuration dist)).sum / 60) -
            (prs.map (fun p => ((round (rawDuration dist p) : Int) : ℚ))).sum / 60|
        ≤ |roundTo1 ((prs.map (rawDuration dist)).sum / 60) -
            (prs.map (rawDuration dist)).sum / 60|
          + |(prs.map (rawDuration dist)).sum / 60 -
              (prs.map (fun p => ((round (rawDuration dist p) : Int) : ℚ))).sum / 60| :=
          abs_sub_le _ _ _
      _ ≤ 1 / 20 + ((prs.length : ℚ) * (1 / 2)) / 60 := add_le_add h1 h3
      _ = 1 / 20 + (prs.length : ℚ) / 120 := by ring

/-- C6 amended: the simulated route visits origin, the waypoints in
order, then destination (segments chain head to tail); the rounded total
distance is within 0.05 x (segments + 1) of the summed rounded segment
distances (so within the claimed 0.1 when there are no waypoints, but not
in general); and the total hours are within 1/20 + n/120 of the summed
rounded segment minutes divided by 60. -/
theorem simulate_route_data_chain_and_totals (dist : String → String → ℚ)
    (roads : String → String → List String) (origin destination : String)
    (waypoints : List String) :
    (simulate_route_data dist roads origin destination waypoints).segments.map
        Segment.fromLoc = origin :: waypoints ∧
    (simulate_route_data dist roads origin destination waypoints).segments.map
        Segment.toLoc = waypoints ++ [destination] ∧
    List.Chain' (fun s t => s.toLoc = t.fromLoc)
      (simulate_route_data dist roads origin destination waypoints).segments ∧
    |(simulate_route_data dist roads origin destination waypoints).total_distance_miles -
        ((simulate_route_data dist roads origin destination waypoints).segments.map
          Segment.distance_miles).sum|
      ≤ (((simulate_route_data dist roads origin destination waypoints).segments.length
            : ℚ) + 1) / 20 ∧
    |(simulate_route_data dist roads origin destination waypoints).total_duration_hours -
        ((simulate_route_data dist roads origin destination waypoints).segments.map
          (fun s => (s.duration_minutes : ℚ))).sum / 60|
      ≤ 1 / 20 +
        ((simulate_route_data dist roads origin destination waypoints).segments.length
          : ℚ) / 120 ∧
    (waypoints = [] →
      |(simulate_route_data dist roads origin destination waypoints).total_distance_miles -
        ((simulate_route_data dist roads origin destination waypoints).segments.map
          Segment.distance_miles).sum| ≤ 1 / 10) := by
  simp only [simulate_route_data]
  refine ⟨?_, ?_, ?_, ?_, ?_, ?_⟩
  · rw [List.map_map,
      show (Segment.fromLoc ∘ mkSegment dist roads)
        = (Prod.fst : String × String → String) from funext fun p => rfl,
      segmentPairs_map_fst,
      show origin :: (waypoints ++ [destination])
        = (origin :: waypoints) ++ [destination] from rfl]
    exact List.dropLast_concat
  · rw [List.map_map,
      show (Segment.toLoc ∘ mkSegment dist roads)
        = (Prod.snd : String × String → String) from funext fun p => rfl,
      segmentPairs_map_snd]
    rfl
  · rw [List.chain'_map]
    exact segmentPairs_chain _
  · exact (route_totals_bound dist roads
      (segmentPairs (origin :: (waypoints ++ [destination])))).1
  · exact (route_totals_bound dist roads
      (segmentPairs (origin :: (waypoints ++ [destination])))).2
  · intro hw
    subst hw
    have h := (route_totals_bound dist roads
      (segmentPairs (origin :: (([] : List String) ++ [destination])))).1
    refine le_trans h ?_
    rw [show ((segmentPairs (origin :: (([] : List String) ++ [destination]))).map
        (mkSegment dist roads)).length = 1 from rfl]
    norm_num

/-- Witness for C6 at a waypoint-free route: the 0.1 tolerance holds for
a single segment. -/
theorem simulate_route_data_chain_and_totals_witness :
    ([] : List String) = [] ∧
    |(simulate_route_data distSB roadsNone "Seattle" "Boise" []).total_distance_miles -
      ((simulate_route_data distSB roadsNone "Seattle" "Boise" []).segments.map
        Segment.distance_miles).sum| ≤ 1 / 10 :=
  ⟨rfl, (simulate_route_data_chain_and_totals distSB roadsNone "Seattle" "Boise"
    []).2.2.2.2.2 rfl⟩

/-- C6 counterexample: with eight segments of the simulated Seattle to
Boise distance, the rounded total distance differs from the sum of the
rounded per-segment distances by 0.2, violating the claimed 0.1
tolerance. -/
theorem route_total_distance_tolerance_cex :
    ¬ |(simulate_route_data distSB roadsNone "Seattle" "Boise"
          cexWaypoints).total_distance_miles -
        ((simulate_route_data distSB roadsNone "Seattle" "Boise"
          cexWaypoints).segments.map Segment.distance_miles).sum| ≤ 1 / 10 := by
  norm_num [simulate_route_data, cexWaypoints, segmentPairs, mkSegment, rawDistance,
    distSB, roundTo1, round_eq]
  rw [abs_of_nonneg (by norm_num : (0 : ℚ) ≤ 1 / 5)]
  norm_num

/-- Membership in an insertion step: the inserted element or an original
one. -/
theorem mem_insertDesc (x a : DateRangeScore) :
    ∀ l : List DateRangeScore, a ∈ insertDesc x l ↔ a = x ∨ a ∈ l := by
  intro l
  induction l with
  | nil => simp [insertDesc]
  | cons y ys ih =>
    rw [insertDesc]
    by_cases hc : y.total_score ≤ x.total_score
    · rw [if_pos hc]
      simp [List.mem_cons]
    · rw [if_neg hc]
      simp [List.mem_cons, ih]
      tauto

/-- The stable descending sort permutes nothing in or out. -/
theorem mem_sortDesc (a : DateRangeScore) :
    ∀ l : List DateRangeScore, a ∈ sortDesc l ↔ a ∈ l := by
  intro l
  induction l with
  | nil => simp [sortDesc]
  | cons x xs ih =>
    rw [sortDesc, mem_insertDesc]
    simp [ih]

/-- Inserting into a sorted-with-stable-ties list keeps it sorted with
stable ties, provided the inserted element originally preceded every
element of the list (ties must place it first). -/
theorem insertDesc_pairwise (x : DateRangeScore) :
    ∀ l : List DateRangeScore,
      (∀ y ∈ l, x.total_score = y.total_score → x.start_date ≤ y.start_date) →
      l.Pairwise (fun a b => b.total_score ≤ a.total_score ∧
        (a.total_score = b.total_score → a.start_date ≤ b.start_date)) →
      (insertDesc x l).Pairwise (fun a b => b.total_score ≤ a.total_score ∧
        (a.total_score = b.total_score → a.start_date ≤ b.start_date)) := by
  intro l
  induction l with
  | nil => intro _ _; simp [insertDesc]
  | cons y ys ih =>
    intro hx hl
    rw [List.pairwise_cons] at hl
    obtain ⟨hy, hys⟩ := hl
    rw [insertDesc]
    by_cases hc : y.total_score ≤ x.total_score
    · rw [if_pos hc, List.pairwise_cons]
      refine ⟨?_, List.pairwise_cons.mpr ⟨hy, hys⟩⟩
      intro z hz
      rcases List.mem_cons.mp hz with rfl | hz2
      · exact ⟨hc, hx z (List.mem_cons_self _ _)⟩
      · obtain ⟨hzy, hzy2⟩ := hy z hz2
        refine ⟨le_trans hzy hc, ?_⟩
        intro hxz
        have h1 : x.total_score ≤ y.total_score := by
          rw [hxz]; exact hzy
        have hxy : x.total_score = y.total_score := le_antisymm h1 hc
        have hxy2 : x.start_date ≤ y.start_date :=
          hx y (List.mem_cons_self _ _) hxy
        have hyz : y.total_score = z.total_score := by rw [← hxy, hxz]
        exact le_trans hxy2 (hzy2 hyz)
    · rw [if_neg hc, List.pairwise_cons]
      constructor
      · intro z hz
        rcases (mem_insertDesc x z ys).mp hz with rfl | hz2
        · have hlt : z.total_score < y.total_score := not_le.mp hc
          exact ⟨le_of_lt hlt, fun he => absurd he (ne_of_gt hlt)⟩
        · exact hy z hz2
      · exact ih (fun y2 hy2 => hx y2 (List.mem_cons_of_mem _ hy2)) hys

/-- Stable descending sort: the result is descending in total_score and
preserves the original order among equal scores. -/
theorem sortDesc_pairwise :
    ∀ l : List DateRangeScore,
      l.Pairwise (fun a b =>
        a.total_score = b.total_score → a.start_date ≤ b.start_date) →
      (sortDesc l).Pairwise (fun a b => b.total_score ≤ a.total_score ∧
        (a.total_score = b.total_score → a.start_date ≤ b.start_date)) := by
  intro l
  induction l with
  | nil => intro _; simp [sortDesc]
  | cons x xs ih =>
    intro hl
    rw [List.pairwise_cons] at hl
    obtain ⟨hx, hxs⟩ := hl
    rw [sortDesc]
    exact insertDesc_pairwise x (sortDesc xs)
      (fun y hy => hx y ((mem_sortDesc y xs).mp hy)) (ih hxs)

/-- Every candidate produced by the scanning loop starts no earlier than
the current date. -/
theorem calendar_loop_start_lb (wS cS wlS : Int → Int → ℚ) (dn : Int → String)
    (pref : Option String) (dur : Int) :
    ∀ (n : Nat) (c : Int) (x : DateRangeScore),
      x ∈ calendar_loop wS cS wlS dn pref dur c n → c ≤ x.start_date := by
  intro n
  induction n with
  | zero => intro c x hx; simp [calendar_loop] at hx
  | succ k ih =>
    intro c x hx
    simp only [calendar_loop] at hx
    by_cases hs : skipsDay dn pref c = true
    · rw [if_pos hs] at hx
      have := ih (c + 1) x hx; omega
    · rw [if_neg hs] at hx
      rcases List.mem_cons.mp hx with rfl | h2
      · simp [mkCandidate]
      · have := ih (c + 1) x h2; omega

/-- The scanning loop produces candidates with strictly increasing start
dates (it appends in ascending date order). -/
theorem calendar_loop_pairwise (wS cS wlS : Int → Int → ℚ) (dn : Int → String)
    (pref : Option String) (dur : Int) :
    ∀ (n : Nat) (c : Int),
      (calendar_loop wS cS wlS dn pref dur c n).Pairwise
        (fun a b => a.start_date < b.start_date) := by
  intro n
  induction n with
  | zero => intro c; simp [calendar_loop]
  | succ k ih =>
    intro c
    simp only [calendar_loop]
    by_cases hs : skipsDay dn pref c = true
    · rw [if_pos hs]
      exact ih (c + 1)
    · rw [if_neg hs, List.pairwise_cons]
      refine ⟨?_, ih (c + 1)⟩
      intro y hy
      have := calendar_loop_start_lb wS cS wlS dn pref dur k (c + 1) y hy
      simp only [mkCandidate]
      omega

/-- Every element of the scanning loop is a candidate record built by
mkCandidate for some start date. -/
theorem calendar_loop_shape (wS cS wlS : Int → Int → ℚ) (dn : Int → String)
    (pref : Option String) (dur : Int) :
    ∀ (n : Nat) (c : Int) (x : DateRangeScore),
      x ∈ calendar_loop wS cS wlS dn pref dur c n →
      ∃ d : Int, x = mkCandidate wS cS wlS dur d := by
  intro n
  induction n with
  | zero => intro c x hx; simp [calendar_loop] at hx
  | succ k ih =>
    intro c x hx
    simp only [calendar_loop] at hx
    by_cases hs : skipsDay dn pref c = true
    · rw [if_pos hs] at hx
      exact ih (c + 1) x hx
    · rw [if_neg hs] at hx
      rcases List.mem_cons.mp hx with rfl | h2
      · exact ⟨c, rfl⟩
      · exact ih (c + 1) x h2

/-- The stored composite score of a candidate is within one hundredth of
the weighted combination of its stored component scores. -/
theorem mkCandidate_score_bound (wS cS wlS : Int → Int → ℚ) (dur d : Int) :
    |(mkCandidate wS cS wlS dur d).total_score -
      (0.4 * (mkCandidate wS cS wlS dur d).weather_score +
       0.4 * (mkCandidate wS cS wlS dur d).crowd_score +
       0.2 * (mkCandidate wS cS wlS dur d).wildlife_score)| ≤ 1 / 100 := by
  simp only [mkCandidate]
  have h1 := roundTo2_abs (wS d (d + (dur - 1)))
  have h2 := roundTo2_abs (cS d (d + (dur - 1)))
  have h3 := roundTo2_abs (wlS d (d + (dur - 1)))
  have h4 := roundTo2_abs (wS d (d + (dur - 1)) * 0.4 + cS d (d + (dur - 1)) * 0.4 +
    wlS d (d + (dur - 1)) * 0.2)
  rw [abs_le] at h1 h2 h3 h4 ⊢
  constructor <;> [linarith [h1.1, h2.1, h3.1, h4.1, h1.2, h2.2, h3.2, h4.2];
    linarith [h1.1, h2.1, h3.1, h4.1, h1.2, h2.2, h3.2, h4.2]]

/-- C5: the calendar optimizer returns at most three candidates, sorted
descending by composite score with ties keeping the earlier start date
first, and each returned composite equals 0.4 weather + 0.4 crowd + 0.2
wildlife of the stored components up to two-decimal rounding (within one
hundredth). -/
theorem calendar_run_score_sort_top3 (wS cS wlS : Int → Int → ℚ)
    (dayNameLower : Int → String) (pref : Option String)
    (travel_window_start travel_window_end trip_duration_days : Int) :
    (calendar_optimizer_run wS cS wlS dayNameLower pref travel_window_start
        travel_window_end trip_duration_days).length ≤ 3 ∧
    (calendar_optimizer_run wS cS wlS dayNameLower pref travel_window_start
        travel_window_end trip_duration_days).Pairwise (fun a b =>
      b.total_score ≤ a.total_score ∧
      (a.total_score = b.total_score → a.start_date ≤ b.start_date)) ∧
    ∀ cand ∈ calendar_optimizer_run wS cS wlS dayNameLower pref travel_window_start
        travel_window_end trip_duration_days,
      |cand.total_score - (0.4 * cand.weather_score + 0.4 * cand.crowd_score +
        0.2 * cand.wildlife_score)| ≤ 1 / 100 := by
  refine ⟨?_, ?_, ?_⟩
  · simp only [calendar_optimizer_run]
    exact List.length_take_le _ _
  · simp only [calendar_optimizer_run]
    refine List.Pairwise.sublist (List.take_sublist _ _) ?_
    refine sortDesc_pairwise _ ?_
    refine List.Pairwise.imp ?_ (calendar_loop_pairwise wS cS wlS dayNameLower pref
      trip_duration_days _ _)
    intro a b hab _
    exact le_of_lt hab
  · intro cand hc
    simp only [calendar_optimizer_run] at hc
    have hc2 := List.take_subset _ _ hc
    have hc3 := (mem_sortDesc cand _).mp hc2
    obtain ⟨d, rfl⟩ := calendar_loop_shape wS cS wlS dayNameLower pref
      trip_duration_days _ _ _ hc3
    exact mkCandidate_score_bound wS cS wlS trip_duration_days d

/-- Witness for C5 at constant unit scores over a one-day window. -/
theorem calendar_run_score_sort_top3_witness :
    candOne ∈ calendar_optimizer_run oneScore oneScore oneScore dayNameConst none 0 0 1 ∧
    |candOne.total_score - (0.4 * candOne.weather_score + 0.4 * candOne.crowd_score +
      0.2 * candOne.wildlife_score)| ≤ 1 / 100 := by
  have hrun : calendar_optimizer_run oneScore oneScore oneScore dayNameConst none 0 0 1
      = [candOne] := by
    norm_num [calendar_optimizer_run, calendar_loop, skipsDay, sortDesc, insertDesc,
      mkCandidate, oneScore, candOne, roundTo2, round_eq]
  have hmem : candOne
      ∈ calendar_optimizer_run oneScore oneScore oneScore dayNameConst none 0 0 1 := by
    rw [hrun]
    exact List.mem_singleton.mpr rfl
  exact ⟨hmem, (calendar_run_score_sort_top3 oneScore oneScore oneScore dayNameConst
    none 0 0 1).2.2 _ hmem⟩

/-- C2 supporting theorem: in the agent-executor loop as implemented
(each tool call blocking inside asyncio.run), every prefix of the event
trace contains at most one more issue than resolves — at no point are two
sub-agent requests in flight, so Weather and Route are never both issued
before either is awaited. -/
theorem executor_tools_sequential (policy : List (String × String) → Option String)
    (toolRun : String → String) :
    ∀ (fuel : Nat) (transcript : List (String × String)) (pre : List ToolEvent),
      pre <+: executor_trace policy toolRun transcript fuel →
      issueCount pre ≤ resolveCount pre + 1 := by
  intro fuel
  induction fuel with
  | zero =>
    intro transcript pre h
    rw [executor_trace] at h
    rw [List.prefix_nil.mp h]
    simp [issueCount, resolveCount]
  | succ k ih =>
    intro transcript pre h
    rw [executor_trace] at h
    cases hp : policy transcript with
    | none =>
      rw [hp] at h
      rw [List.prefix_nil.mp h]
      simp [issueCount, resolveCount]
    | some tool =>
      rw [hp] at h
      cases pre with
      | nil => simp [issueCount, resolveCount]
      | cons e1 rest1 =>
        obtain ⟨he1, h1⟩ := List.cons_prefix_cons.mp h
        subst he1
        cases rest1 with
        | nil => simp [issueCount, resolveCount]
        | cons e2 rest2 =>
          obtain ⟨he2, h2⟩ := List.cons_prefix_cons.mp h1
          subst he2
          have hrec := ih (transcript ++ [(tool, toolRun tool)]) rest2 h2
          simp only [issueCount, resolveCount, List.filter, List.length_cons] at hrec ⊢
          omega

/-- Witness for the executor-sequentiality theorem at a two-tool
policy. -/
theorem executor_tools_sequential_witness :
    [ToolEvent.issue "weather_forecast", ToolEvent.resolve "weather_forecast",
     ToolEvent.issue "route_planner", ToolEvent.resolve "route_planner"] <+:
      executor_trace seqPolicy constToolRun [] 3 ∧
    issueCount [ToolEvent.issue "weather_forecast", ToolEvent.resolve "weather_forecast",
      ToolEvent.issue "route_planner", ToolEvent.resolve "route_planner"] ≤
    resolveCount [ToolEvent.issue "weather_forecast",
      ToolEvent.resolve "weather_forecast", ToolEvent.issue "route_planner",
      ToolEvent.resolve "route_planner"] + 1 :=
  ⟨by decide, executor_tools_sequential seqPolicy constToolRun 3 []
    [ToolEvent.issue "weather_forecast", ToolEvent.resolve "weather_forecast",
     ToolEvent.issue "route_planner", ToolEvent.resolve "route_planner"] (by decide)⟩
